import Mathlib

/-!
# State-gated publish cycle of the robot-to-human localisation node

Shallow embedding of `src/src/robot_to_human_localisation.cpp`
(`R2HLocalisation`: constructor, `make_timer_`, `timer_callback_`,
`publish_diagnostics_`) and of `src/src/robot_to_human_localisation_node.cpp`
(`main`).

The node talks to parts that live in other packages (the clock, the
localisation filter, the three publishers, the parameter helpers and the timer
factory of the middleware).  Every call to one of them is recorded as an
`Event`, in program order, and the answer of the call is supplied by a record
of functions.  A call may raise a fault (a C++ exception); the code contains no
`try` block, so a fault ends the enclosing function of the node.  The executor that
invokes the timer callback is not part of the sources; it is modelled from the
specification.
-/

namespace Romea

/-! ## Value types -/

/-- Modelled from the spec: the enumeration `core::LocalisationFSMState` is declared
outside `src/`.  The code names one enumerator, `RUNNING`; every other enumerator is
represented by `other code`. -/
inductive LocalisationFSMState where
  | RUNNING
  | other (code : Nat)
  deriving DecidableEq, Repr

/-- An `rclcpp::Time`, as a count of nanoseconds. -/
abbrev Time := Nat

/-- A `core::Duration`, as a count of nanoseconds. -/
abbrev Duration := Int

/-- A coordinate of a position.  The code only copies coordinates to its outputs. -/
abbrev Coord := Int

/-- The member `position` of a `core::Position2D`, with accessors `x()` and `y()`. -/
structure Position2D where
  x : Coord
  y : Coord
  deriving DecidableEq, Repr

/-- The results object returned by `filter_->get_results`; opaque to the node. -/
structure Results where
  id : Nat
  deriving DecidableEq, Repr

/-- A `core::DiagnosticReport`; opaque to the node. -/
structure DiagnosticReport where
  id : Nat
  deriving DecidableEq, Repr

/-- What an exception carries. -/
abbrev Fault := String

/-- One operand of a chain of `<<` on `std::cout`. -/
inductive StreamItem where
  | text (s : String)
  | num (c : Coord)
  | endl
  deriving DecidableEq, Repr

/-! ## Events -/

/-- A call made by the node to something outside of it, with the arguments passed. -/
inductive Event where
  /-- The call `node_->get_clock()->now()`. -/
  | clock_now
  /-- The call `filter_->get_fsm_state()`. -/
  | get_fsm_state
  /-- The call `filter_->get_results(d)`. -/
  | get_results (d : Duration)
  /-- One statement `std::cout << ...`, with its operands in order. -/
  | stdout_write (items : List StreamItem)
  /-- The call `leader_position_publisher_->publish(stamp, position)`. -/
  | leader_position_publish (stamp : Time) (position : Position2D)
  /-- The call `status_publisher_->publish(state)`. -/
  | status_publish (state : LocalisationFSMState)
  /-- The call `filter_->make_diagnostic_report(d)`. -/
  | make_diagnostic_report (d : Duration)
  /-- The call `diagnostic_publisher_->publish(stamp, report)`. -/
  | diagnostic_publish (stamp : Time) (report : DiagnosticReport)
  /-- The call `std::make_unique<R2HLocalisationFilter>(node_)`. -/
  | make_filter
  /-- The call `make_stamped_data_publisher<core::Position2D, ...>(...)`. -/
  | make_leader_position_publisher
  /-- The call `make_diagnostic_publisher<core::DiagnosticReport>(...)`. -/
  | make_diagnostic_publisher
  /-- The call `make_data_publisher<core::LocalisationFSMState, ...>(...)`. -/
  | make_status_publisher
  /-- The call `node_->create_wall_timer(period, callback)`. -/
  | create_wall_timer (period : Duration)
  /-- The call `rclcpp::shutdown()`. -/
  | shutdown
  deriving DecidableEq, Repr

/-! ## Computations that call out and may raise -/

/-- The calls made so far, and either the value returned or the fault raised. -/
structure Tick (α : Type) where
  trace : List Event
  result : Except Fault α

/-- Return without calling anything. -/
def Tick.pure {α : Type} (a : α) : Tick α := ⟨[], .ok a⟩

/-- Sequencing: a fault in the first part skips the second part. -/
def Tick.bind {α β : Type} (m : Tick α) (f : α → Tick β) : Tick β :=
  match m.result with
  | .error e => ⟨m.trace, .error e⟩
  | .ok a => ⟨m.trace ++ (f a).trace, (f a).result⟩

instance : Monad Tick where
  pure := Tick.pure
  bind := Tick.bind

/-- One call: the event is recorded, the answer is whatever the callee gives. -/
def call {α : Type} (e : Event) (answer : Except Fault α) : Tick α := ⟨[e], answer⟩

/-! ## The parts outside of the node, as seen during one timer expiry -/

/-- Answers of the clock, the filter and the publishers during one tick, and the two
conversion functions the tick uses. -/
structure Collaborators where
  now : Time
  get_fsm_state : Except Fault LocalisationFSMState
  get_results : Duration → Except Fault Results
  make_diagnostic_report : Duration → Except Fault DiagnosticReport
  leader_position_publish : Time → Position2D → Except Fault Unit
  status_publish : LocalisationFSMState → Except Fault Unit
  diagnostic_publish : Time → DiagnosticReport → Except Fault Unit
  to_romea_duration : Time → Duration
  toLeaderPosition2D : Results → Position2D

/-- Answers of collaborators that all return normally. -/
structure Answers where
  now : Time
  fsm_state : LocalisationFSMState
  results : Duration → Results
  report : Duration → DiagnosticReport
  to_romea_duration : Time → Duration
  toLeaderPosition2D : Results → Position2D

/-- Collaborators none of whose calls raises. -/
def Answers.reliable (a : Answers) : Collaborators where
  now := a.now
  get_fsm_state := .ok a.fsm_state
  get_results := fun d => .ok (a.results d)
  make_diagnostic_report := fun d => .ok (a.report d)
  leader_position_publish := fun _ _ => .ok ()
  status_publish := fun _ => .ok ()
  diagnostic_publish := fun _ _ => .ok ()
  to_romea_duration := a.to_romea_duration
  toLeaderPosition2D := a.toLeaderPosition2D

/-! ## The node -/

/-- Method `R2HLocalisation::publish_diagnostics_`. -/
def publish_diagnostics_ (c : Collaborators) (stamp : Time) : Tick Unit := do
  let report ← call (.make_diagnostic_report (c.to_romea_duration stamp))
    (c.make_diagnostic_report (c.to_romea_duration stamp))
  call (.diagnostic_publish stamp report) (c.diagnostic_publish stamp report)

/-- Method `R2HLocalisation::timer_callback_`. -/
def timer_callback_ (c : Collaborators) : Tick Unit := do
  let stamp ← call .clock_now (.ok c.now)
  let fsm_state ← call .get_fsm_state c.get_fsm_state
  if fsm_state = .RUNNING then
    let results ← call (.get_results (c.to_romea_duration stamp))
      (c.get_results (c.to_romea_duration stamp))
    let leader_position := c.toLeaderPosition2D results
    call (.stdout_write [.text "leader position ", .num leader_position.x, .text " ",
      .num leader_position.y, .text " ", .endl]) (.ok ())
    call (.leader_position_publish stamp leader_position)
      (c.leader_position_publish stamp leader_position)
  call (.status_publish fsm_state) (c.status_publish fsm_state)
  publish_diagnostics_ c stamp

/-! ## Construction and the run loop -/

/-- Start-up configuration: the value given for the parameter `publish_rate`, if any. -/
structure NodeOptions where
  publish_rate : Option Int

/-- The node handle `node_`, reduced to the parameter the code reads back. -/
structure Node where
  publish_rate : Int

/-- Modelled from the spec: `declare_publish_rate` is declared outside `src/`; it
declares the option `publish_rate` with the given default, which applies when the
option is not configured. -/
def declare_publish_rate (options : NodeOptions) (default_value : Int) : Node :=
  ⟨options.publish_rate.getD default_value⟩

/-- Modelled from the spec: `get_publish_rate` is declared outside `src/`; it reads the
option `publish_rate` back. -/
def get_publish_rate (node : Node) : Int := node.publish_rate

/-- Answers, during construction, of the factories of the filter, the publishers and the
timer.  `period_of_rate r` stands for `core::durationFromSecond(1. / r)`: the division is
done on `double` and the conversion is declared outside `src/`. -/
structure Middleware where
  make_filter : Except Fault Unit
  make_leader_position_publisher : Except Fault Unit
  make_diagnostic_publisher : Except Fault Unit
  make_status_publisher : Except Fault Unit
  period_of_rate : Int → Duration
  create_wall_timer : Duration → Except Fault Unit

/-- The constructed object, reduced to the period its timer was created with. -/
structure R2HLocalisation where
  timer_period : Duration
  deriving DecidableEq, Repr

/-- Method `R2HLocalisation::make_filter_`. -/
def make_filter_ (m : Middleware) : Tick Unit :=
  call .make_filter m.make_filter

/-- Method `R2HLocalisation::make_leader_position_publisher_`. -/
def make_leader_position_publisher_ (m : Middleware) : Tick Unit :=
  call .make_leader_position_publisher m.make_leader_position_publisher

/-- Method `R2HLocalisation::make_diagnostic_publisher_`. -/
def make_diagnostic_publisher_ (m : Middleware) : Tick Unit :=
  call .make_diagnostic_publisher m.make_diagnostic_publisher

/-- Method `R2HLocalisation::make_status_publisher_`. -/
def make_status_publisher_ (m : Middleware) : Tick Unit :=
  call .make_status_publisher m.make_status_publisher

/-- Method `R2HLocalisation::make_timer_`. -/
def make_timer_ (m : Middleware) (node : Node) : Tick Duration := do
  let timer_period := m.period_of_rate (get_publish_rate node)
  call (.create_wall_timer timer_period) (m.create_wall_timer timer_period)
  pure timer_period

set_option linter.dupNamespace false in
/-- The constructor `R2HLocalisation::R2HLocalisation`. -/
def R2HLocalisation.R2HLocalisation (m : Middleware) (options : NodeOptions) :
    Tick R2HLocalisation := do
  let node_ := declare_publish_rate options 10
  make_filter_ m
  make_leader_position_publisher_ m
  make_diagnostic_publisher_ m
  make_status_publisher_ m
  let timer_period ← make_timer_ m node_
  pure ⟨timer_period⟩

/-- Modelled from the spec: the executor is outside `src/`.  A tick that fails is
reported as a fault of that tick and is not passed on to the schedule (section 7: the
core "propagates the fault as a reportable error for that tick and proceeds to schedule
the next tick normally"). -/
def Tick.reported (t : Tick Unit) : Tick Unit := ⟨t.trace, .ok ()⟩

/-- Modelled from the spec: `executor.spin()` belongs to the executor, which is outside
`src/`.  By sections 4.1, 5 and 7 the scheduler invokes the tick handler once per timer
expiry, one invocation at a time and in order, until shutdown, and "one failed tick must
never stop the Scheduler permanently".  The list holds, for each expiry before shutdown,
the answers the collaborators give during it. -/
def spin (callback : Collaborators → Tick Unit) : List Collaborators → Tick Unit
  | [] => pure ()
  | c :: rest => do
    (callback c).reported
    spin callback rest

/-- The function `main` of the node executable. -/
def main (m : Middleware) (options : NodeOptions) (expiries : List Collaborators) :
    Tick Int := do
  let _node ← R2HLocalisation.R2HLocalisation m options
  spin timer_callback_ expiries
  call .shutdown (.ok ())
  pure 0

/-! ## Observations on a trace -/

/-- The call reads the clock. -/
def Event.isClockRead : Event → Bool
  | .clock_now => true
  | _ => false

/-- The call asks the filter for its lifecycle state. -/
def Event.isStateQuery : Event → Bool
  | .get_fsm_state => true
  | _ => false

/-- The call asks the filter for its results. -/
def Event.isResultsQuery : Event → Bool
  | .get_results _ => true
  | _ => false

/-- The call asks the filter for a diagnostic report. -/
def Event.isDiagnosticQuery : Event → Bool
  | .make_diagnostic_report _ => true
  | _ => false

/-- The call publishes on the position channel. -/
def Event.isPositionPublish : Event → Bool
  | .leader_position_publish _ _ => true
  | _ => false

/-- The call publishes on the status channel. -/
def Event.isStatusPublish : Event → Bool
  | .status_publish _ => true
  | _ => false

/-- The call publishes on the diagnostics channel. -/
def Event.isDiagnosticPublish : Event → Bool
  | .diagnostic_publish _ _ => true
  | _ => false

/-- The call publishes on one of the three channels. -/
def Event.isPublish (e : Event) : Bool :=
  e.isPositionPublish || e.isStatusPublish || e.isDiagnosticPublish

/-- The call goes to the filter or to a channel. -/
def Event.isCollaboratorCall (e : Event) : Bool :=
  e.isStateQuery || e.isResultsQuery || e.isDiagnosticQuery || e.isPublish

/-- The call writes to standard output. -/
def Event.isStdoutWrite : Event → Bool
  | .stdout_write _ => true
  | _ => false

/-- The call has an effect that can be seen from outside of the process. -/
def Event.isOutputEffect (e : Event) : Bool :=
  e.isPublish || e.isStdoutWrite

/-- The `rclcpp::Time` argument of a call, when it has one. -/
def Event.stamp? : Event → Option Time
  | .leader_position_publish stamp _ => some stamp
  | .diagnostic_publish stamp _ => some stamp
  | _ => none

/-- The `core::Duration` argument of a query to the filter, when it has one. -/
def Event.asOf? : Event → Option Duration
  | .get_results d => some d
  | .make_diagnostic_report d => some d
  | _ => none

/-- The tick ran to its end. -/
def Tick.completes {α : Type} (t : Tick α) : Bool :=
  match t.result with
  | .ok _ => true
  | .error _ => false

/-! ## The trace of a tick whose calls all return -/

/-- The calls of a tick in the state `RUNNING`, for answers `a`. -/
def runningTrace (a : Answers) : List Event :=
  [.clock_now, .get_fsm_state, .get_results (a.to_romea_duration a.now),
   .stdout_write [.text "leader position ",
     .num (a.toLeaderPosition2D (a.results (a.to_romea_duration a.now))).x, .text " ",
     .num (a.toLeaderPosition2D (a.results (a.to_romea_duration a.now))).y, .text " ",
     .endl],
   .leader_position_publish a.now
     (a.toLeaderPosition2D (a.results (a.to_romea_duration a.now))),
   .status_publish .RUNNING,
   .make_diagnostic_report (a.to_romea_duration a.now),
   .diagnostic_publish a.now (a.report (a.to_romea_duration a.now))]

/-- The calls of a tick in a state other than `RUNNING`, for answers `a`. -/
def idleTrace (a : Answers) : List Event :=
  [.clock_now, .get_fsm_state, .status_publish a.fsm_state,
   .make_diagnostic_report (a.to_romea_duration a.now),
   .diagnostic_publish a.now (a.report (a.to_romea_duration a.now))]

/-- The traces of the given ticks, one after the other. -/
def tracesOf (callback : Collaborators → Tick Unit) : List Collaborators → List Event
  | [] => []
  | c :: rest => (callback c).trace ++ tracesOf callback rest

/-- The publish calls of a tick, for answers `a`. -/
def publishesOf (a : Answers) : List Event :=
  if a.fsm_state = .RUNNING then
    [.leader_position_publish a.now
       (a.toLeaderPosition2D (a.results (a.to_romea_duration a.now))),
     .status_publish a.fsm_state,
     .diagnostic_publish a.now (a.report (a.to_romea_duration a.now))]
  else
    [.status_publish a.fsm_state,
     .diagnostic_publish a.now (a.report (a.to_romea_duration a.now))]

/-- The publish calls of the given ticks, one tick after the other. -/
def publishesOfAll : List Answers → List Event
  | [] => []
  | a :: rest => publishesOf a ++ publishesOfAll rest

/-! ## Sample inputs -/

/-- A state other than `RUNNING`. -/
def DEGRADED : LocalisationFSMState := .other 0

/-- Answers of a tick in the state `RUNNING`, at time 7. -/
def sampleRunning : Answers where
  now := 7
  fsm_state := .RUNNING
  results := fun d => ⟨d.toNat⟩
  report := fun d => ⟨d.toNat + 1⟩
  to_romea_duration := fun t => t
  toLeaderPosition2D := fun r => ⟨r.id, 2⟩

/-- Answers of a tick in a state other than `RUNNING`, at time 9. -/
def sampleDegraded : Answers :=
  { sampleRunning with now := 9, fsm_state := DEGRADED }

/-- Collaborators of a tick in the state `RUNNING` whose diagnostic query raises. -/
def sampleBrokenDiagnostics : Collaborators :=
  { sampleRunning.reliable with make_diagnostic_report := fun _ => .error "no report" }

/-- A middleware all of whose factories return, with a conversion that drops the
fraction of a nanosecond. -/
def sampleMiddleware : Middleware where
  make_filter := .ok ()
  make_leader_position_publisher := .ok ()
  make_diagnostic_publisher := .ok ()
  make_status_publisher := .ok ()
  period_of_rate := fun r => 1000000000 / r
  create_wall_timer := fun _ => .ok ()

/-! ## Lemmas on sequencing -/

theorem timer_callback_trace (a : Answers) :
    (timer_callback_ a.reliable).trace =
      if a.fsm_state = .RUNNING then runningTrace a else idleTrace a := by
  by_cases h : a.fsm_state = .RUNNING
  · simp [timer_callback_, publish_diagnostics_, Answers.reliable, call, bind, Tick.bind,
      runningTrace, h]
  · simp [timer_callback_, publish_diagnostics_, Answers.reliable, call, bind, Tick.bind,
      idleTrace, h, pure, Tick.pure]

theorem timer_callback_completes (a : Answers) :
    (timer_callback_ a.reliable).result = .ok () := by
  by_cases h : a.fsm_state = .RUNNING
  · simp [timer_callback_, publish_diagnostics_, Answers.reliable, call, bind, Tick.bind, h]
  · simp [timer_callback_, publish_diagnostics_, Answers.reliable, call, bind, Tick.bind,
      h, pure, Tick.pure]

theorem bind_trace_ok {α β : Type} (m : Tick α) (f : α → Tick β) (a : α)
    (h : m.result = .ok a) : (m >>= f).trace = m.trace ++ (f a).trace := by
  simp [bind, Tick.bind, h]

theorem bind_result_ok {α β : Type} (m : Tick α) (f : α → Tick β) (a : α)
    (h : m.result = .ok a) : (m >>= f).result = (f a).result := by
  simp [bind, Tick.bind, h]

theorem spin_cons (callback : Collaborators → Tick Unit) (c : Collaborators)
    (rest : List Collaborators) :
    spin callback (c :: rest) = ((callback c).reported >>= fun _ => spin callback rest) :=
  rfl

theorem spin_runs_every_tick (callback : Collaborators → Tick Unit) :
    ∀ ticks : List Collaborators,
      (spin callback ticks).trace = tracesOf callback ticks
      ∧ (spin callback ticks).result = .ok ()
  | [] => by simp [spin, tracesOf, pure, Tick.pure]
  | c :: rest => by
    have hc : (callback c).reported.result = .ok () := rfl
    have ih := spin_runs_every_tick callback rest
    rw [spin_cons, bind_trace_ok _ _ () hc, bind_result_ok _ _ () hc]
    simp [tracesOf, ih.1, ih.2, Tick.reported]

theorem tracesOf_append (callback : Collaborators → Tick Unit) :
    ∀ xs ys : List Collaborators,
      tracesOf callback (xs ++ ys) = tracesOf callback xs ++ tracesOf callback ys
  | [], ys => by simp [tracesOf]
  | x :: xs, ys => by simp [tracesOf, tracesOf_append callback xs ys]

/-! ## The gate on the position -/

/-- Claim C1: whatever the sampled state, a tick makes one results query and one
position publish when the state is `RUNNING` and none of either otherwise; when it
publishes, the position is `toLeaderPosition2D` of what that query returned. -/
theorem timer_callback_position_gate (a : Answers) :
    (timer_callback_ a.reliable).trace.countP Event.isResultsQuery
        = (if a.fsm_state = .RUNNING then 1 else 0)
    ∧ (timer_callback_ a.reliable).trace.countP Event.isPositionPublish
        = (if a.fsm_state = .RUNNING then 1 else 0)
    ∧ (timer_callback_ a.reliable).trace.filter Event.isResultsQuery
        = (if a.fsm_state = .RUNNING then [.get_results (a.to_romea_duration a.now)] else [])
    ∧ (timer_callback_ a.reliable).trace.filter Event.isPositionPublish
        = (if a.fsm_state = .RUNNING then
            [.leader_position_publish a.now
              (a.toLeaderPosition2D (a.results (a.to_romea_duration a.now)))]
          else []) := by
  rw [timer_callback_trace]
  by_cases h : a.fsm_state = .RUNNING
  · simp [h, runningTrace, Event.isResultsQuery, Event.isPositionPublish]
  · simp [h, idleTrace, Event.isResultsQuery, Event.isPositionPublish]

/-- Claim C2: whatever the sampled state, a tick asks for the state once, publishes
that same state once on the status channel, asks for one diagnostic report and then
publishes that report once; the results query is made exactly when that state is
`RUNNING`. -/
theorem timer_callback_status_and_diagnostics (a : Answers) :
    (timer_callback_ a.reliable).trace.countP Event.isStateQuery = 1
    ∧ (timer_callback_ a.reliable).trace.countP Event.isStatusPublish = 1
    ∧ (timer_callback_ a.reliable).trace.countP Event.isDiagnosticQuery = 1
    ∧ (timer_callback_ a.reliable).trace.countP Event.isDiagnosticPublish = 1
    ∧ (timer_callback_ a.reliable).trace.filter Event.isStatusPublish
        = [.status_publish a.fsm_state]
    ∧ (timer_callback_ a.reliable).trace.filter
          (fun e => e.isDiagnosticQuery || e.isDiagnosticPublish)
        = [.make_diagnostic_report (a.to_romea_duration a.now),
           .diagnostic_publish a.now (a.report (a.to_romea_duration a.now))]
    ∧ (timer_callback_ a.reliable).trace.any Event.isResultsQuery
        = decide (a.fsm_state = .RUNNING) := by
  rw [timer_callback_trace]
  by_cases h : a.fsm_state = .RUNNING
  · simp [h, runningTrace, Event.isStateQuery, Event.isStatusPublish,
      Event.isDiagnosticQuery, Event.isDiagnosticPublish, Event.isResultsQuery]
  · simp [h, idleTrace, Event.isStateQuery, Event.isStatusPublish,
      Event.isDiagnosticQuery, Event.isDiagnosticPublish, Event.isResultsQuery]

/-- Claim C3: the calls of a tick to the filter and to the channels come in one order:
state query, then, in the state `RUNNING` only, results query and position publish,
then status publish, diagnostic query and diagnostics publish.  The last publish is the
diagnostics one, and the status publish comes after the position publish. -/
theorem timer_callback_call_order (a : Answers) :
    (timer_callback_ a.reliable).trace.filter Event.isCollaboratorCall
        = (if a.fsm_state = .RUNNING then
            [.get_fsm_state,
             .get_results (a.to_romea_duration a.now),
             .leader_position_publish a.now
               (a.toLeaderPosition2D (a.results (a.to_romea_duration a.now))),
             .status_publish a.fsm_state,
             .make_diagnostic_report (a.to_romea_duration a.now),
             .diagnostic_publish a.now (a.report (a.to_romea_duration a.now))]
          else
            [.get_fsm_state,
             .status_publish a.fsm_state,
             .make_diagnostic_report (a.to_romea_duration a.now),
             .diagnostic_publish a.now (a.report (a.to_romea_duration a.now))])
    ∧ ((timer_callback_ a.reliable).trace.filter Event.isPublish).getLast?
        = some (.diagnostic_publish a.now (a.report (a.to_romea_duration a.now)))
    ∧ (timer_callback_ a.reliable).trace.filter
          (fun e => e.isPositionPublish || e.isStatusPublish)
        = (if a.fsm_state = .RUNNING then
            [.leader_position_publish a.now
               (a.toLeaderPosition2D (a.results (a.to_romea_duration a.now))),
             .status_publish a.fsm_state]
          else [.status_publish a.fsm_state]) := by
  rw [timer_callback_trace]
  by_cases h : a.fsm_state = .RUNNING
  · simp [h, runningTrace, Event.isCollaboratorCall, Event.isPublish, Event.isStateQuery,
      Event.isStatusPublish, Event.isDiagnosticQuery, Event.isDiagnosticPublish,
      Event.isResultsQuery, Event.isPositionPublish]
  · simp [h, idleTrace, Event.isCollaboratorCall, Event.isPublish, Event.isStateQuery,
      Event.isStatusPublish, Event.isDiagnosticQuery, Event.isDiagnosticPublish,
      Event.isResultsQuery, Event.isPositionPublish]

/-! ## Timestamps -/

/-- Claim C4, as stated, fails: in the sample tick in the state `RUNNING` the clock reads
7, and the status publish is among the publish calls but is given no timestamp. -/
theorem status_publish_has_no_stamp :
    ¬ ((timer_callback_ sampleRunning.reliable).trace.filter Event.isPublish).all
        (fun e => e.stamp? == some sampleRunning.now) = true := by
  decide

/-- Claim C4, amended: a tick reads the clock once; the position publish and the
diagnostics publish are given that reading, the results query and the diagnostic query
are given its conversion by `to_romea_duration`, and the status publish is given the
state only, without a timestamp. -/
theorem timer_callback_single_stamp (a : Answers) :
    (timer_callback_ a.reliable).trace.countP Event.isClockRead = 1
    ∧ ((timer_callback_ a.reliable).trace.filter
          (fun e => e.isPositionPublish || e.isDiagnosticPublish)).all
        (fun e => e.stamp? == some a.now) = true
    ∧ ((timer_callback_ a.reliable).trace.filter
          (fun e => e.isResultsQuery || e.isDiagnosticQuery)).all
        (fun e => e.asOf? == some (a.to_romea_duration a.now)) = true
    ∧ ((timer_callback_ a.reliable).trace.filter Event.isStatusPublish).map Event.stamp?
        = [none]
    ∧ (timer_callback_ a.reliable).trace.filter Event.isStatusPublish
        = [.status_publish a.fsm_state] := by
  rw [timer_callback_trace]
  by_cases h : a.fsm_state = .RUNNING
  · simp [h, runningTrace, Event.isClockRead, Event.isStatusPublish,
      Event.isDiagnosticQuery, Event.isDiagnosticPublish, Event.isResultsQuery,
      Event.isPositionPublish, Event.stamp?, Event.asOf?]
  · simp [h, idleTrace, Event.isClockRead, Event.isStatusPublish,
      Event.isDiagnosticQuery, Event.isDiagnosticPublish, Event.isResultsQuery,
      Event.isPositionPublish, Event.stamp?, Event.asOf?]

/-! ## Output effects -/

/-- Claim C5, as stated, fails: the sample tick in the state `RUNNING` has an output
effect that is not a publish call, a write to standard output. -/
theorem running_tick_writes_stdout :
    ¬ ((timer_callback_ sampleRunning.reliable).trace.filter Event.isOutputEffect).all
        Event.isPublish = true := by
  decide

/-- Claim C5, amended: in a state other than `RUNNING` the output effects of a tick are
its status publish and its diagnostics publish; in the state `RUNNING` they are one line
written to standard output (the text "leader position " and the two coordinates of the
leader position), then the position, status and diagnostics publishes. -/
theorem timer_callback_output_effects (a : Answers) :
    (timer_callback_ a.reliable).trace.filter Event.isOutputEffect
        = (if a.fsm_state = .RUNNING then
            [.stdout_write [.text "leader position ",
               .num (a.toLeaderPosition2D (a.results (a.to_romea_duration a.now))).x,
               .text " ",
               .num (a.toLeaderPosition2D (a.results (a.to_romea_duration a.now))).y,
               .text " ", .endl],
             .leader_position_publish a.now
               (a.toLeaderPosition2D (a.results (a.to_romea_duration a.now))),
             .status_publish a.fsm_state,
             .diagnostic_publish a.now (a.report (a.to_romea_duration a.now))]
          else
            [.status_publish a.fsm_state,
             .diagnostic_publish a.now (a.report (a.to_romea_duration a.now))])
    ∧ (timer_callback_ a.reliable).trace.countP Event.isStdoutWrite
        = (if a.fsm_state = .RUNNING then 1 else 0) := by
  rw [timer_callback_trace]
  by_cases h : a.fsm_state = .RUNNING
  · simp [h, runningTrace, Event.isOutputEffect, Event.isPublish, Event.isStdoutWrite,
      Event.isStatusPublish, Event.isDiagnosticPublish, Event.isPositionPublish]
  · simp [h, idleTrace, Event.isOutputEffect, Event.isPublish, Event.isStdoutWrite,
      Event.isStatusPublish, Event.isDiagnosticPublish, Event.isPositionPublish]

/-! ## Construction -/

theorem publishesOf_eq (a : Answers) :
    (timer_callback_ a.reliable).trace.filter Event.isPublish = publishesOf a := by
  rw [timer_callback_trace]
  by_cases h : a.fsm_state = .RUNNING
  · simp [h, runningTrace, publishesOf, Event.isPublish, Event.isStatusPublish,
      Event.isDiagnosticPublish, Event.isPositionPublish]
  · simp [h, idleTrace, publishesOf, Event.isPublish, Event.isStatusPublish,
      Event.isDiagnosticPublish, Event.isPositionPublish]

theorem tracesOf_reliable_counts :
    ∀ ticks : List Answers,
      (tracesOf timer_callback_ (ticks.map Answers.reliable)).countP Event.isStatusPublish
          = ticks.length
      ∧ (tracesOf timer_callback_ (ticks.map Answers.reliable)).countP
            Event.isDiagnosticPublish = ticks.length
      ∧ (tracesOf timer_callback_ (ticks.map Answers.reliable)).countP
            Event.isPositionPublish
          = ticks.countP (fun a => decide (a.fsm_state = .RUNNING))
      ∧ (tracesOf timer_callback_ (ticks.map Answers.reliable)).filter Event.isPublish
          = publishesOfAll ticks
  | [] => by simp [tracesOf, publishesOfAll]
  | a :: rest => by
    obtain ⟨h1, h2, h3, h4⟩ := tracesOf_reliable_counts rest
    have hp := publishesOf_eq a
    simp only [List.map_cons, tracesOf, List.countP_append, List.filter_append, h1, h2, h3,
      h4, hp, publishesOfAll, List.length_cons, List.countP_cons]
    rw [timer_callback_trace]
    by_cases h : a.fsm_state = .RUNNING
    · simp [h, runningTrace, Event.isStatusPublish, Event.isDiagnosticPublish,
        Event.isPositionPublish, Nat.add_comm]
    · simp [h, idleTrace, Event.isStatusPublish, Event.isDiagnosticPublish,
        Event.isPositionPublish, Nat.add_comm]

theorem spin_reliable (ticks : List Answers) :
    (spin timer_callback_ (ticks.map Answers.reliable)).trace
        = tracesOf timer_callback_ (ticks.map Answers.reliable)
    ∧ (spin timer_callback_ (ticks.map Answers.reliable)).result = .ok () := by
  exact spin_runs_every_tick timer_callback_ (ticks.map Answers.reliable)

/-- Claim C9: ticks keep nothing from one to the next.  For any sequence of answers, one
per tick, of length `n` with `r` of them in the state `RUNNING`, running the ticks in turn
makes `n` status publishes, `n` diagnostics publishes and `r` position publishes; the
calls of the run are the calls of each tick taken alone, in order, and its publish calls
are those determined by the answers of each tick.  For the states `RUNNING`, `RUNNING`,
`DEGRADED` the three numbers are 3, 3 and 2. -/
theorem spin_publish_counts (ticks : List Answers) :
    (spin timer_callback_ (ticks.map Answers.reliable)).trace.countP Event.isStatusPublish
        = ticks.length
    ∧ (spin timer_callback_ (ticks.map Answers.reliable)).trace.countP
          Event.isDiagnosticPublish = ticks.length
    ∧ (spin timer_callback_ (ticks.map Answers.reliable)).trace.countP
          Event.isPositionPublish
        = ticks.countP (fun a => decide (a.fsm_state = .RUNNING))
    ∧ (spin timer_callback_ (ticks.map Answers.reliable)).trace
        = tracesOf timer_callback_ (ticks.map Answers.reliable)
    ∧ (spin timer_callback_ (ticks.map Answers.reliable)).trace.filter Event.isPublish
        = publishesOfAll ticks
    ∧ (spin timer_callback_ (ticks.map Answers.reliable)).result = .ok ()
    ∧ (spin timer_callback_
          ([sampleRunning, sampleRunning, sampleDegraded].map Answers.reliable)).trace.countP
          Event.isStatusPublish = 3
    ∧ (spin timer_callback_
          ([sampleRunning, sampleRunning, sampleDegraded].map Answers.reliable)).trace.countP
          Event.isDiagnosticPublish = 3
    ∧ (spin timer_callback_
          ([sampleRunning, sampleRunning, sampleDegraded].map Answers.reliable)).trace.countP
          Event.isPositionPublish = 2 := by
  obtain ⟨htrace, hresult⟩ := spin_reliable ticks
  obtain ⟨h1, h2, h3, h4⟩ := tracesOf_reliable_counts ticks
  rw [htrace]
  exact ⟨h1, h2, h3, rfl, h4, hresult, by decide, by decide, by decide⟩

/-! ## The run after a tick that raises -/

/-- Claim C8: with the executor as the specification describes it, a tick that raises
does not stop the run.  When construction returns and a tick raises `f`, `main` makes the
calls of construction, of the ticks before, of the failing tick up to its fault, of every
tick after it, and then `rclcpp::shutdown`; the ticks after it, when their own calls
return, make one status publish and one diagnostics publish each, those determined by
their own answers. -/
theorem main_continues_after_fault (m : Middleware) (options : NodeOptions)
    (before : List Collaborators) (bad : Collaborators) (after : List Answers) (f : Fault)
    (hctor : (R2HLocalisation.R2HLocalisation m options).completes = true)
    (hbad : (timer_callback_ bad).result = .error f) :
    (timer_callback_ bad).completes = false
    ∧ (main m options (before ++ bad :: after.map Answers.reliable)).trace
        = (R2HLocalisation.R2HLocalisation m options).trace
          ++ tracesOf timer_callback_ before ++ (timer_callback_ bad).trace
          ++ tracesOf timer_callback_ (after.map Answers.reliable) ++ [.shutdown]
    ∧ (tracesOf timer_callback_ (after.map Answers.reliable)).countP Event.isStatusPublish
        = after.length
    ∧ (tracesOf timer_callback_ (after.map Answers.reliable)).countP
          Event.isDiagnosticPublish = after.length
    ∧ (tracesOf timer_callback_ (after.map Answers.reliable)).filter Event.isPublish
        = publishesOfAll after
    ∧ (main m options (before ++ bad :: after.map Answers.reliable)).result = .ok 0 := by
  obtain ⟨htrace, hresult⟩ :=
    spin_runs_every_tick timer_callback_ (before ++ bad :: after.map Answers.reliable)
  obtain ⟨h1, h2, _, h4⟩ := tracesOf_reliable_counts after
  refine ⟨by simp [Tick.completes, hbad], ?_, h1, h2, h4, ?_⟩
  · cases hnode : (R2HLocalisation.R2HLocalisation m options).result with
    | error e => simp [Tick.completes, hnode] at hctor
    | ok node =>
      unfold main
      rw [bind_trace_ok _ _ node hnode, bind_trace_ok _ _ () hresult, htrace,
        tracesOf_append]
      simp [tracesOf, call, bind, Tick.bind, pure, Tick.pure, List.append_assoc]
  · cases hnode : (R2HLocalisation.R2HLocalisation m options).result with
    | error e => simp [Tick.completes, hnode] at hctor
    | ok node =>
      unfold main
      rw [bind_result_ok _ _ node hnode, bind_result_ok _ _ () hresult]
      simp [call, bind, Tick.bind, pure, Tick.pure]

/-- Claim C8 at the sample run: a tick that returns, then the tick whose diagnostic
query raises, then a tick in the state `DEGRADED`, which makes its two publishes. -/
theorem main_continues_after_fault_witness :
    (timer_callback_ sampleBrokenDiagnostics).completes = false
    ∧ (main sampleMiddleware ⟨none⟩
        ([sampleRunning.reliable] ++ sampleBrokenDiagnostics
          :: [sampleDegraded].map Answers.reliable)).trace
        = (R2HLocalisation.R2HLocalisation sampleMiddleware ⟨none⟩).trace
          ++ tracesOf timer_callback_ [sampleRunning.reliable]
          ++ (timer_callback_ sampleBrokenDiagnostics).trace
          ++ tracesOf timer_callback_ ([sampleDegraded].map Answers.reliable) ++ [.shutdown]
    ∧ (tracesOf timer_callback_ ([sampleDegraded].map Answers.reliable)).countP
          Event.isStatusPublish = [sampleDegraded].length
    ∧ (tracesOf timer_callback_ ([sampleDegraded].map Answers.reliable)).countP
          Event.isDiagnosticPublish = [sampleDegraded].length
    ∧ (tracesOf timer_callback_ ([sampleDegraded].map Answers.reliable)).filter
          Event.isPublish = publishesOfAll [sampleDegraded]
    ∧ (main sampleMiddleware ⟨none⟩
        ([sampleRunning.reliable] ++ sampleBrokenDiagnostics
          :: [sampleDegraded].map Answers.reliable)).result = .ok 0 :=
  main_continues_after_fault sampleMiddleware ⟨none⟩ [sampleRunning.reliable]
    sampleBrokenDiagnostics [sampleDegraded] "no report" (by decide) rfl

end Romea
